import Mathlib

/-!
Verification of the ORPHE-INSOLE BLE packet decoding and session-state
subsystem (orphe_insole.py), shallowly embedded in Lean.

Conventions of the embedding:
* A byte payload is a `List Nat` (each entry one byte, 0..255 as produced
  by the transport).
* Python indexed access `data[i]` raises `IndexError` when out of range;
  it is modelled by `pyGet` returning `Option Nat` (`none` = exception).
* Python slicing `data[a:b]` never raises; it clips to the available
  bytes (`pySlice`), and `int.from_bytes` of the (possibly short or
  empty) slice yields the big-endian value of whatever bytes are there
  (`beU`/`beS`), with the empty slice decoding to 0.
* `struct.unpack` requires the buffer length to equal the format size
  exactly and raises `struct.error` otherwise; it is modelled by
  `unpackBits`, which keeps the raw big-endian bit pattern of the
  half/single precision field (the IEEE-754 value itself is not
  interpreted by any claim under verification).
* `to_timestamp` combines device time-of-day bytes with the host clock
  (`datetime.now()`); its return value is modelled as an opaque
  parameter `tsBase` handed to the decoder, while the `data[3]`..`data[7]`
  index accesses it performs (which can raise) are still modelled.
* Sensor values are exact rationals; every arithmetic operation the code
  performs on them (division by 32768 of a 16-bit integer, multiplication
  by a small integer range multiplier) is exact in IEEE double precision,
  so the rational model agrees with the Python float computation.
* Functions that can raise part-way return `List _ × Bool` (events
  emitted before the exception, and whether execution completed) or
  `Option _` when nothing observable happens before the exception.
-/

namespace OrpheInsole

/-- Python indexed access `data[i]`: `none` models `IndexError`. -/
def pyGet (data : List Nat) (i : Nat) : Option Nat := data[i]?

/-- Python slice `data[a:b]` with nonnegative bounds: clips, never fails. -/
def pySlice (data : List Nat) (a b : Nat) : List Nat := (data.take b).drop a

/-- `int.from_bytes(bs, byteorder='big', signed=False)`; empty gives 0. -/
def beU (bs : List Nat) : Nat := bs.foldl (fun acc b => acc * 256 + b) 0

/-- `int.from_bytes(bs, byteorder='big', signed=True)`; empty gives 0. -/
def beS (bs : List Nat) : Int :=
  if beU bs < 2 ^ (8 * bs.length - 1) then (beU bs : Int)
  else (beU bs : Int) - 2 ^ (8 * bs.length)

/-- `struct.unpack('>e' or '>f', data[a:b])`: requires the slice to hold
exactly `b - a` bytes (else `struct.error`); the decoded IEEE-754 field is
kept as its raw big-endian bit pattern. -/
def unpackBits (data : List Nat) (a b : Nat) : Option Nat :=
  if (pySlice data a b).length = b - a then some (beU (pySlice data a b)) else none

/-- Raw signed 16-bit big-endian field at bytes `a, a+1`, normalized by
dividing by 32768 (`int.from_bytes(data[a:a+2], signed=True) / 32768`). -/
def normS16 (data : List Nat) (a : Nat) : ℚ := (beS (pySlice data a (a + 2)) : ℚ) / 32768

/-! ## Step-analysis channel: record types (`GaitData`, `StrideData`,
`PronationData`, `QuatDistanceData`, `StepAnalysisData`) -/

/-- `GaitData.__init__`: gait-overview record. Float fields keep raw bits. -/
structure GaitData where
  step_count : Nat
  gait_type : Nat
  direction : Nat
  calorie : Nat
  distance : Nat
  standing_phase_duration : Nat
  swing_phase_duration : Nat
deriving DecidableEq

/-- `GaitData.__init__` on a raw payload.  Note the gait_type line is a
faithful transcription of `data[4] & 0b11000000 >> 6`, in which Python
evaluates the shift before the mask. -/
def GaitData.decode (data : List Nat) : Option GaitData := do
  let b4 ← pyGet data 4
  let cal ← unpackBits data 6 8
  let dist ← unpackBits data 8 12
  let stand ← unpackBits data 12 16
  let swing ← unpackBits data 16 20
  pure { step_count := beU (pySlice data 2 4),
         gait_type := b4 &&& (0b11000000 >>> 6),
         direction := (b4 &&& 0b00111000) >>> 3,
         calorie := cal,
         distance := dist,
         standing_phase_duration := stand,
         swing_phase_duration := swing }

/-- `StrideData.__init__`: stride record. Float fields keep raw bits. -/
structure StrideData where
  step_count : Nat
  foot_angle : Nat
  x : Nat
  y : Nat
  z : Nat
deriving DecidableEq

/-- `StrideData.__init__` on a raw payload. -/
def StrideData.decode (data : List Nat) : Option StrideData := do
  let fa ← unpackBits data 4 8
  let x ← unpackBits data 8 12
  let y ← unpackBits data 12 16
  let z ← unpackBits data 16 20
  pure { step_count := beU (pySlice data 2 4), foot_angle := fa, x := x, y := y, z := z }

/-- `PronationData.__init__`: pronation record. Float fields keep raw bits. -/
structure PronationData where
  step_count : Nat
  landing_impact : Nat
  x : Nat
  y : Nat
  z : Nat
deriving DecidableEq

/-- `PronationData.__init__` on a raw payload. -/
def PronationData.decode (data : List Nat) : Option PronationData := do
  let li ← unpackBits data 4 8
  let x ← unpackBits data 8 12
  let y ← unpackBits data 12 16
  let z ← unpackBits data 16 20
  pure { step_count := beU (pySlice data 2 4), landing_impact := li, x := x, y := y, z := z }

/-- `QuatDistanceData.__init__`: quaternion-and-distance record.
Half-float fields keep raw bits. -/
structure QuatDistanceData where
  step_count : Nat
  phase : Nat
  period : Nat
  event : Nat
  w : Nat
  x : Nat
  y : Nat
  z : Nat
  x_distance : Nat
  y_distance : Nat
  z_distance : Nat
deriving DecidableEq

/-- `QuatDistanceData.__init__` on a raw payload. -/
def QuatDistanceData.decode (data : List Nat) : Option QuatDistanceData := do
  let b4 ← pyGet data 4
  let w ← unpackBits data 6 8
  let x ← unpackBits data 8 10
  let y ← unpackBits data 10 12
  let z ← unpackBits data 12 14
  let xd ← unpackBits data 14 16
  let yd ← unpackBits data 16 18
  let zd ← unpackBits data 18 20
  pure { step_count := beU (pySlice data 2 4),
         phase := b4 &&& 0b00000001,
         period := (b4 &&& 0b00011110) >>> 1,
         event := (b4 &&& 0b11100000) >>> 5,
         w := w, x := x, y := y, z := z,
         x_distance := xd, y_distance := yd, z_distance := zd }

/-- `StepCount.__init__`: per-category last-seen step counts. -/
structure StepCount where
  gait : Nat
  stride : Nat
  pronation : Nat
  quat : Nat
deriving DecidableEq

/-- One decoded step-analysis event handed to a registered callback. -/
inductive StepEvent where
  | gait (g : GaitData)
  | stride (s : StrideData)
  | pronation (p : PronationData)
  | quatDistance (q : QuatDistanceData)
deriving DecidableEq

/-- `StepAnalysisData.__init__`: dispatch on sub-type byte `data[1]`,
dedup sub-types 0/1/2 by strict step-count advance, always update the
stored count; sub-type 4 always emits.  Returns the events that would be
delivered to registered callbacks together with the updated step counts;
`none` models an exception escaping the constructor (in which case no
event was emitted and the stored counts are unchanged, exactly as in the
source, where the record decode precedes both callback and update). -/
def StepAnalysisData.process (owner : StepCount) (data : List Nat) :
    Option (List StepEvent × StepCount) := do
  let sub ← pyGet data 1
  if sub = 0 then
    let sc := beU (pySlice data 2 4)
    if sc > owner.gait then
      let g ← GaitData.decode data
      pure ([.gait g], { owner with gait := sc })
    else
      pure ([], { owner with gait := sc })
  else if sub = 1 then
    let sc := beU (pySlice data 2 4)
    if sc > owner.stride then
      let s ← StrideData.decode data
      pure ([.stride s], { owner with stride := sc })
    else
      pure ([], { owner with stride := sc })
  else if sub = 2 then
    let sc := beU (pySlice data 2 4)
    if sc > owner.pronation then
      let p ← PronationData.decode data
      pure ([.pronation p], { owner with pronation := sc })
    else
      pure ([], { owner with pronation := sc })
  else if sub = 4 then
    let sc := beU (pySlice data 2 4)
    let q ← QuatDistanceData.decode data
    pure ([.quatDistance q], { owner with quat := sc })
  else
    pure ([], owner)

/-- Processing the same payload twice in a row (the device sends each
analysis payload twice for delivery assurance), threading the state. -/
def StepAnalysisData.processTwice (owner : StepCount) (data : List Nat) :
    Option (List StepEvent × StepCount) := do
  let r1 ← StepAnalysisData.process owner data
  let r2 ← StepAnalysisData.process r1.2 data
  pure (r1.1 ++ r2.1, r2.2)

/-- Sub-type byte a step-analysis event corresponds to. -/
def StepEvent.cat : StepEvent → Nat
  | .gait _ => 0
  | .stride _ => 1
  | .pronation _ => 2
  | .quatDistance _ => 4

/-- Number of emitted step-analysis events of the given category. -/
def countCat (c : Nat) (evs : List StepEvent) : Nat :=
  (evs.filter (fun e => e.cat == c)).length

/-! ## Sensor-values channel: sample records and the three wire formats -/

/-- `AccData` / its converted variant: one accelerometer sample. -/
structure AccData where
  x : ℚ
  y : ℚ
  z : ℚ
  timestamp : Nat
  serial_number : Nat
  packet_number : Nat
deriving DecidableEq

/-- `GyroData` / its converted variant: one gyroscope sample. -/
structure GyroData where
  x : ℚ
  y : ℚ
  z : ℚ
  timestamp : Nat
  serial_number : Nat
  packet_number : Nat
deriving DecidableEq

/-- `QuatData`: one quaternion sample. -/
structure QuatData where
  w : ℚ
  x : ℚ
  y : ℚ
  z : ℚ
  timestamp : Nat
  serial_number : Nat
  packet_number : Nat
deriving DecidableEq

/-- `PressureData`: one pressure sample (6 unsigned 16-bit channels). -/
structure PressureData where
  values : List Nat
  timestamp : Nat
  serial_number : Nat
  packet_number : Nat
deriving DecidableEq

/-- One decoded sensor-stream event handed to a registered callback, in
the emission order of the source. -/
inductive SensorEvent where
  | acc (a : AccData)
  | convertedAcc (a : AccData)
  | gyro (g : GyroData)
  | convertedGyro (g : GyroData)
  | quat (q : QuatData)
  | pressure (p : PressureData)
deriving DecidableEq

/-- `[2, 4, 8, 16]`: accelerometer range multiplier table. -/
def ampAccTable : List Nat := [2, 4, 8, 16]

/-- `[250, 500, 1000, 2000]`: gyroscope range multiplier table. -/
def ampGyroTable : List Nat := [250, 500, 1000, 2000]

/-- Tag-50 slot decode (`step = 21*i`): acc at 22+step, gyro at 16+step,
quat at 8+step, packet_number `3-i`; events in source callback order. -/
def slot50 (ampA ampG : Nat) (data : List Nat) (serial i ts : Nat) : List SensorEvent :=
  let step := 21 * i
  let acc : AccData :=
    { x := normS16 data (22 + step), y := normS16 data (24 + step), z := normS16 data (26 + step),
      timestamp := ts, serial_number := serial, packet_number := 3 - i }
  let cacc : AccData :=
    { acc with x := acc.x * ampA, y := acc.y * ampA, z := acc.z * ampA }
  let gyro : GyroData :=
    { x := normS16 data (16 + step), y := normS16 data (18 + step), z := normS16 data (20 + step),
      timestamp := ts, serial_number := serial, packet_number := 3 - i }
  let cgyro : GyroData :=
    { gyro with x := gyro.x * ampG, y := gyro.y * ampG, z := gyro.z * ampG }
  let quat : QuatData :=
    { w := normS16 data (8 + step), x := normS16 data (10 + step), y := normS16 data (12 + step),
      z := normS16 data (14 + step),
      timestamp := ts, serial_number := serial, packet_number := 3 - i }
  [.acc acc, .convertedAcc cacc, .gyro gyro, .convertedGyro cgyro, .quat quat]

/-- Tag-50 sample loop over `range(3, -1, -1)`: newest slot (i = 3) keeps
the base timestamp, older slots add the delta byte `data[28 + 21*i]`
before their callbacks fire; a failed delta read aborts with the events
already emitted. -/
def loop50 (ampA ampG : Nat) (data : List Nat) (serial : Nat) :
    List Nat → Nat → List SensorEvent × Bool
  | [], _ => ([], true)
  | i :: rest, ts =>
    if i = 3 then
      let evs := slot50 ampA ampG data serial i ts
      let r := loop50 ampA ampG data serial rest ts
      (evs ++ r.1, r.2)
    else
      match pyGet data (28 + 21 * i) with
      | none => ([], false)
      | some d =>
        let ts2 := ts + d
        let evs := slot50 ampA ampG data serial i ts2
        let r := loop50 ampA ampG data serial rest ts2
        (evs ++ r.1, r.2)

/-- Tag-55 slot decode (`step = 24*i`): gyro at 8+step, acc at 14+step,
six pressure channels at 20+step (no quaternion); packet_number `3-i`. -/
def slot55 (ampA ampG : Nat) (data : List Nat) (serial i ts : Nat) : List SensorEvent :=
  let step := 24 * i
  let acc : AccData :=
    { x := normS16 data (14 + step), y := normS16 data (16 + step), z := normS16 data (18 + step),
      timestamp := ts, serial_number := serial, packet_number := 3 - i }
  let cacc : AccData :=
    { acc with x := acc.x * ampA, y := acc.y * ampA, z := acc.z * ampA }
  let gyro : GyroData :=
    { x := normS16 data (8 + step), y := normS16 data (10 + step), z := normS16 data (12 + step),
      timestamp := ts, serial_number := serial, packet_number := 3 - i }
  let cgyro : GyroData :=
    { gyro with x := gyro.x * ampG, y := gyro.y * ampG, z := gyro.z * ampG }
  let pressure : PressureData :=
    { values := (List.range 6).map (fun j => beU (pySlice data (20 + step + 2 * j) (22 + step + 2 * j))),
      timestamp := ts, serial_number := serial, packet_number := 3 - i }
  [.acc acc, .convertedAcc cacc, .gyro gyro, .convertedGyro cgyro, .pressure pressure]

/-- Tag-55 sample loop over `range(3, -1, -1)`.  The delta byte is read
from `data[28 + step]` with `step = 24*i`, exactly as the source does
(offset 28+24*i lands inside the pressure field of slot `i`). -/
def loop55 (ampA ampG : Nat) (data : List Nat) (serial : Nat) :
    List Nat → Nat → List SensorEvent × Bool
  | [], _ => ([], true)
  | i :: rest, ts =>
    if i = 3 then
      let evs := slot55 ampA ampG data serial i ts
      let r := loop55 ampA ampG data serial rest ts
      (evs ++ r.1, r.2)
    else
      match pyGet data (28 + 24 * i) with
      | none => ([], false)
      | some d =>
        let ts2 := ts + d
        let evs := slot55 ampA ampG data serial i ts2
        let r := loop55 ampA ampG data serial rest ts2
        (evs ++ r.1, r.2)

/-- Tag-56 slot decode (`step = 32*i`): quat at 8+step, gyro at 16+step,
acc at 22+step, six pressure channels at 28+step; packet_number `1-i`;
events in source callback order (pressure before quat). -/
def slot56 (ampA ampG : Nat) (data : List Nat) (serial i ts : Nat) : List SensorEvent :=
  let step := 32 * i
  let acc : AccData :=
    { x := normS16 data (22 + step), y := normS16 data (24 + step), z := normS16 data (26 + step),
      timestamp := ts, serial_number := serial, packet_number := 1 - i }
  let cacc : AccData :=
    { acc with x := acc.x * ampA, y := acc.y * ampA, z := acc.z * ampA }
  let gyro : GyroData :=
    { x := normS16 data (16 + step), y := normS16 data (18 + step), z := normS16 data (20 + step),
      timestamp := ts, serial_number := serial, packet_number := 1 - i }
  let cgyro : GyroData :=
    { gyro with x := gyro.x * ampG, y := gyro.y * ampG, z := gyro.z * ampG }
  let quat : QuatData :=
    { w := normS16 data (8 + step), x := normS16 data (10 + step), y := normS16 data (12 + step),
      z := normS16 data (14 + step),
      timestamp := ts, serial_number := serial, packet_number := 1 - i }
  let pressure : PressureData :=
    { values := (List.range 6).map (fun j => beU (pySlice data (28 + step + 2 * j) (30 + step + 2 * j))),
      timestamp := ts, serial_number := serial, packet_number := 1 - i }
  [.acc acc, .convertedAcc cacc, .gyro gyro, .convertedGyro cgyro, .pressure pressure, .quat quat]

/-- Tag-56 sample loop over `range(1, -1, -1)`: every slot keeps the base
timestamp unchanged (the source never adds a delta in this branch). -/
def loop56 (ampA ampG : Nat) (data : List Nat) (serial : Nat) :
    List Nat → Nat → List SensorEvent × Bool
  | [], _ => ([], true)
  | i :: rest, ts =>
    let evs := slot56 ampA ampG data serial i ts
    let r := loop56 ampA ampG data serial rest ts
    (evs ++ r.1, r.2)

/-- The tag-50 decode path of `SensorValuesData.__init__`: the
`8 ≤ data.length` test models the `data[3]`..`data[7]` accesses made by
`to_timestamp` before the loop, and the table lookups model
`[2,4,8,16][range.acc]` / `[250,500,1000,2000][range.gyro]`, which raise
in the first loop iteration before any callback fires. -/
def decode50path (racc rgyro tsBase : Nat) (data : List Nat) : List SensorEvent × Bool :=
  if 8 ≤ data.length then
    match ampAccTable[racc]?, ampGyroTable[rgyro]? with
    | some ampA, some ampG => loop50 ampA ampG data (beU (pySlice data 1 3)) [3, 2, 1, 0] tsBase
    | _, _ => ([], false)
  else ([], false)

/-- The tag-55 decode path of `SensorValuesData.__init__`. -/
def decode55path (racc rgyro tsBase : Nat) (data : List Nat) : List SensorEvent × Bool :=
  if 8 ≤ data.length then
    match ampAccTable[racc]?, ampGyroTable[rgyro]? with
    | some ampA, some ampG => loop55 ampA ampG data (beU (pySlice data 1 3)) [3, 2, 1, 0] tsBase
    | _, _ => ([], false)
  else ([], false)

/-- The tag-56 decode path of `SensorValuesData.__init__`. -/
def decode56path (racc rgyro tsBase : Nat) (data : List Nat) : List SensorEvent × Bool :=
  if 8 ≤ data.length then
    match ampAccTable[racc]?, ampGyroTable[rgyro]? with
    | some ampA, some ampG => loop56 ampA ampG data (beU (pySlice data 1 3)) [1, 0] tsBase
    | _, _ => ([], false)
  else ([], false)

/-- `SensorValuesData.__init__`: dispatch on the format tag `data[0]`.
A payload whose tag matches none of 50/55/56 (including the legacy
tag 40) falls through every branch: nothing is decoded, no callback
fires, and no exception is raised. -/
def SensorValuesData.decode (racc rgyro tsBase : Nat) (data : List Nat) :
    List SensorEvent × Bool :=
  match pyGet data 0 with
  | none => ([], false)
  | some t =>
    if t = 50 then decode50path racc rgyro tsBase data
    else if t = 55 then decode55path racc rgyro tsBase data
    else if t = 56 then decode56path racc rgyro tsBase data
    else ([], true)

/-! ## Device information codec -/

/-- `Range.__init__`: sensor range indices. -/
structure Range where
  acc : Nat
  gyro : Nat
deriving DecidableEq

/-- `DeviceInformation.__init__` decoded fields. -/
structure DeviceInformation where
  battery : Nat
  mount_position : Nat
  range : Range
  version : Nat
deriving DecidableEq

/-- `DeviceInformation.__init__`: battery at byte 0, mount position at
byte 1, accel range at byte 8, gyro range at byte 9, version at byte 18
(all read through never-failing slices). -/
def DeviceInformation.decode (data : List Nat) : DeviceInformation :=
  { battery := beU (pySlice data 0 1),
    mount_position := beU (pySlice data 1 2),
    range := { acc := beU (pySlice data 8 9), gyro := beU (pySlice data 9 10) },
    version := beU (pySlice data 18 19) }

/-- `Orphe.getChecksum`: sum of bytes 0..18 (indexed access, so a buffer
shorter than 19 raises) masked to 8 bits. -/
def getChecksum (data : List Nat) : Option Nat :=
  ((List.range 19).foldlM (fun acc i => (pyGet data i).map (fun b => acc + b)) 0).map
    (fun s => s &&& 0xFF)

/-- `bytearray([...])`: every entry must be a byte, else `ValueError`. -/
def mkBytearray (bs : List Nat) : Option (List Nat) :=
  if bs.all (fun b => b < 256) then some bs else none

/-- `Orphe.write_device_information`: the fixed 19-byte template with
mount position at byte 1, accel range at byte 7, gyro range at byte 8,
version at byte 18, followed by the appended checksum byte.  Returns the
20-byte buffer written to the device characteristic. -/
def write_device_information (mount racc rgyro version : Nat) : Option (List Nat) := do
  let ba ← mkBytearray [0x09, mount, 0x00, 0x00, 0x01, 0x00, 0x3C, racc, rgyro,
                        0x00, 0x00, 0x00, 0xFF, 0x00, 0x00, 0x00, 0x00, 0x00, version]
  let c ← getChecksum ba
  pure (ba ++ [c])

/-! ## Session manager: `Orphe` notification handlers -/

/-- The session state the notification handlers read and update:
connection status, the stored previous serial number, the per-category
step counts, and the range indices of the last-read device information
(the handlers are exercised after read_device_information, as the source
requires before starting notifications). -/
structure OrpheState where
  connected : Bool
  serial_number_prev : Nat
  step_count : StepCount
  range_acc : Nat
  range_gyro : Nat
deriving DecidableEq

/-- An observable effect of the sensor-values handler. -/
inductive HandlerEvent where
  | sensor (e : SensorEvent)
  | lost (prev cur : Nat)
deriving DecidableEq

/-- `Orphe.sensor_values_notification_handler`: drop everything while not
connected; decode tags 50/55/56 and then run serial-gap detection with
Python integer subtraction (`serial - prev > 1`), reporting
`(prev, serial)` before storing the new serial; tag 40 only constructs
the (branchless) `SensorValuesData`; other tags are ignored. -/
def sensor_values_notification_handler (st : OrpheState) (tsBase : Nat) (data : List Nat) :
    List HandlerEvent × OrpheState × Bool :=
  if st.connected = false then ([], st, true)
  else
    match pyGet data 0 with
    | none => ([], st, false)
    | some t =>
      if t = 50 ∨ t = 55 ∨ t = 56 then
        let r := SensorValuesData.decode st.range_acc st.range_gyro tsBase data
        if r.2 then
          let serial := beU (pySlice data 1 3)
          let loss : List HandlerEvent :=
            if (serial : ℤ) - (st.serial_number_prev : ℤ) > 1 then
              [.lost st.serial_number_prev serial]
            else []
          (r.1.map .sensor ++ loss, { st with serial_number_prev := serial }, true)
        else
          (r.1.map .sensor, st, false)
      else if t = 40 then
        let r := SensorValuesData.decode st.range_acc st.range_gyro tsBase data
        (r.1.map .sensor, st, r.2)
      else ([], st, true)

/-- `Orphe.step_analysis_notification_handler`: unconditionally hands the
payload to `StepAnalysisData` (there is no connection check on this
channel). -/
def step_analysis_notification_handler (st : OrpheState) (data : List Nat) :
    List StepEvent × OrpheState × Bool :=
  match StepAnalysisData.process st.step_count data with
  | none => ([], st, false)
  | some r => (r.1, { st with step_count := r.2 }, true)

/-! ## Event extractors used to state the claims -/

/-- x components of the raw accelerometer events, in emission order. -/
def accXs (evs : List SensorEvent) : List ℚ :=
  evs.filterMap fun e => match e with | .acc a => some a.x | _ => none

/-- x components of the converted accelerometer events, in emission order. -/
def convertedAccXs (evs : List SensorEvent) : List ℚ :=
  evs.filterMap fun e => match e with | .convertedAcc a => some a.x | _ => none

/-- x components of the raw gyroscope events, in emission order. -/
def gyroXs (evs : List SensorEvent) : List ℚ :=
  evs.filterMap fun e => match e with | .gyro g => some g.x | _ => none

/-- x components of the converted gyroscope events, in emission order. -/
def convertedGyroXs (evs : List SensorEvent) : List ℚ :=
  evs.filterMap fun e => match e with | .convertedGyro g => some g.x | _ => none

/-- The loss notifications among a handler run's events, in order. -/
def lostEvents (evs : List HandlerEvent) : List (Nat × Nat) :=
  evs.filterMap fun e => match e with | .lost a b => some (a, b) | _ => none

/-! ## Concrete payloads used by individual claims -/

/-- Tag-56 packet (72 bytes) whose newest slot carries raw accelerometer
x bytes 0x4000 (= 16384, normalized 1/2) and raw gyroscope x bytes
0x2000 (= 8192, normalized 1/4); all other fields zero. -/
def rangeScalingPacket : List Nat :=
  [56, 0, 1, 0, 0, 0, 0, 0] ++ List.replicate 40 0 ++ [0x20, 0x00] ++
    List.replicate 4 0 ++ [0x40, 0x00] ++ List.replicate 16 0

/-! ## Helper lemmas -/

theorem pyGet_eq_getD (data : List Nat) (i : Nat) (h : i < data.length) :
    pyGet data i = some (data.getD i 0) := by
  rw [pyGet, List.getD_eq_getElem?_getD, List.getElem?_eq_getElem h]
  rfl

theorem pySlice_length (data : List Nat) (a b : Nat) (h : b ≤ data.length) :
    (pySlice data a b).length = b - a := by
  simp [pySlice]
  omega

theorem unpackBits_of_le (data : List Nat) (a b : Nat) (h : b ≤ data.length) :
    unpackBits data a b = some (beU (pySlice data a b)) := by
  rw [unpackBits, if_pos (pySlice_length data a b h)]

theorem gaitDecode_isSome (data : List Nat) (h : 20 ≤ data.length) :
    ∃ g, GaitData.decode data = some g := by
  rw [GaitData.decode, pyGet_eq_getD data 4 (by omega),
    unpackBits_of_le data 6 8 (by omega), unpackBits_of_le data 8 12 (by omega),
    unpackBits_of_le data 12 16 (by omega), unpackBits_of_le data 16 20 (by omega)]
  exact ⟨_, rfl⟩

theorem strideDecode_isSome (data : List Nat) (h : 20 ≤ data.length) :
    ∃ s, StrideData.decode data = some s := by
  rw [StrideData.decode, unpackBits_of_le data 4 8 (by omega),
    unpackBits_of_le data 8 12 (by omega), unpackBits_of_le data 12 16 (by omega),
    unpackBits_of_le data 16 20 (by omega)]
  exact ⟨_, rfl⟩

theorem pronationDecode_isSome (data : List Nat) (h : 20 ≤ data.length) :
    ∃ p, PronationData.decode data = some p := by
  rw [PronationData.decode, unpackBits_of_le data 4 8 (by omega),
    unpackBits_of_le data 8 12 (by omega), unpackBits_of_le data 12 16 (by omega),
    unpackBits_of_le data 16 20 (by omega)]
  exact ⟨_, rfl⟩

theorem quatDistanceDecode_isSome (data : List Nat) (h : 20 ≤ data.length) :
    ∃ q, QuatDistanceData.decode data = some q := by
  rw [QuatDistanceData.decode, pyGet_eq_getD data 4 (by omega),
    unpackBits_of_le data 6 8 (by omega), unpackBits_of_le data 8 10 (by omega),
    unpackBits_of_le data 10 12 (by omega), unpackBits_of_le data 12 14 (by omega),
    unpackBits_of_le data 14 16 (by omega), unpackBits_of_le data 16 18 (by omega),
    unpackBits_of_le data 18 20 (by omega)]
  exact ⟨_, rfl⟩

/-! ## Claim theorems -/

/-- Claim C1, counterexample: with the session's stored gait count already
equal to the payload's step_count (here both 0, the initial state),
processing the same sub-type-0 payload twice emits the gait event zero
times, not "exactly once total" as the claim states for every session
state. -/
theorem C1_counterexample :
    ¬ ((StepAnalysisData.processTwice ⟨0, 0, 0, 0⟩ (List.replicate 20 0)).map
        (fun r => countCat 0 r.1) = some 1) := by
  decide

/-- Claim C5 (code bug): the source line
`self.gait_type = data[4] & 0b11000000 >> 6` evaluates the shift before
the mask (Python precedence), so the decoded gait_type is the low two
bits `data[4] & 0b11`, not the top two bits the adjacent source comment
documents.  On a gait payload with byte 4 = 0b01000000 the code yields
gait_type 0 although the top-two-bit reading (the claim) yields 1; the
direction field is decoded from bits as claimed. -/
theorem C5_gait_type_eval :
    (GaitData.decode ([0, 0, 0, 0, 0b01000000] ++ List.replicate 15 0)).map
        (fun x => GaitData.gait_type x) = some 0 ∧
    (0b01000000 >>> 6) &&& 0b11 = 1 ∧
    (GaitData.decode ([0, 0, 0, 0, 0b01000000] ++ List.replicate 15 0)).map
        (fun x => GaitData.direction x) = some ((0b01000000 >>> 3) &&& 0b111) := by
  decide

/-- Claim C4: with stored previous serial 5, a packet with serial 6
produces no loss notification and stores 6; with serial 7 it produces
exactly one loss notification carrying (5, 7) — the previous serial as
stored before the update — and stores 7; with stored previous 65535 a
serial-0 packet produces no loss notification (Python subtraction is
negative there) and stores 0. -/
theorem C4_serial_gap_detection :
    (lostEvents (sensor_values_notification_handler ⟨true, 5, ⟨0, 0, 0, 0⟩, 0, 0⟩ 0
        ([56, 0, 6] ++ List.replicate 5 0)).1 = [] ∧
      (sensor_values_notification_handler ⟨true, 5, ⟨0, 0, 0, 0⟩, 0, 0⟩ 0
        ([56, 0, 6] ++ List.replicate 5 0)).2.1.serial_number_prev = 6) ∧
    (lostEvents (sensor_values_notification_handler ⟨true, 5, ⟨0, 0, 0, 0⟩, 0, 0⟩ 0
        ([56, 0, 7] ++ List.replicate 5 0)).1 = [(5, 7)] ∧
      (sensor_values_notification_handler ⟨true, 5, ⟨0, 0, 0, 0⟩, 0, 0⟩ 0
        ([56, 0, 7] ++ List.replicate 5 0)).2.1.serial_number_prev = 7) ∧
    (lostEvents (sensor_values_notification_handler ⟨true, 65535, ⟨0, 0, 0, 0⟩, 0, 0⟩ 0
        ([56, 0, 0] ++ List.replicate 5 0)).1 = [] ∧
      (sensor_values_notification_handler ⟨true, 65535, ⟨0, 0, 0, 0⟩, 0, 0⟩ 0
        ([56, 0, 0] ++ List.replicate 5 0)).2.1.serial_number_prev = 0) := by
  decide

/-- Claim C9: with accel range index 0 the multiplier is 2, so the raw
normalized accelerometer value 16384/32768 = 1/2 scales to exactly 1;
with gyro range index 3 the multiplier is 2000, so the raw normalized
value 8192/32768 = 1/4 scales to exactly 500 (witnessed end-to-end on a
tag-56 packet whose newest slot carries those raw bytes). -/
theorem C9_range_scaling :
    accXs (SensorValuesData.decode 0 3 0 rangeScalingPacket).1 = [1 / 2, 0] ∧
    convertedAccXs (SensorValuesData.decode 0 3 0 rangeScalingPacket).1 = [1, 0] ∧
    gyroXs (SensorValuesData.decode 0 3 0 rangeScalingPacket).1 = [1 / 4, 0] ∧
    convertedGyroXs (SensorValuesData.decode 0 3 0 rangeScalingPacket).1 = [500, 0] := by
  have e54 : beS (pySlice rangeScalingPacket 54 (54 + 2)) = 16384 := by decide
  have e22 : beS (pySlice rangeScalingPacket 22 (22 + 2)) = 0 := by decide
  have e48 : beS (pySlice rangeScalingPacket 48 (48 + 2)) = 8192 := by decide
  have e16 : beS (pySlice rangeScalingPacket 16 (16 + 2)) = 0 := by decide
  have n54 : normS16 rangeScalingPacket 54 = ((16384 : ℤ) : ℚ) / 32768 := by
    rw [normS16, e54]
  have n22 : normS16 rangeScalingPacket 22 = ((0 : ℤ) : ℚ) / 32768 := by
    rw [normS16, e22]
  have n48 : normS16 rangeScalingPacket 48 = ((8192 : ℤ) : ℚ) / 32768 := by
    rw [normS16, e48]
  have n16 : normS16 rangeScalingPacket 16 = ((0 : ℤ) : ℚ) / 32768 := by
    rw [normS16, e16]
  refine ⟨?_, ?_, ?_, ?_⟩
  · have h : accXs (SensorValuesData.decode 0 3 0 rangeScalingPacket).1 =
        [normS16 rangeScalingPacket 54, normS16 rangeScalingPacket 22] := rfl
    rw [h, n54, n22]
    norm_num
  · have h : convertedAccXs (SensorValuesData.decode 0 3 0 rangeScalingPacket).1 =
        [normS16 rangeScalingPacket 54 * ((2 : ℕ) : ℚ),
         normS16 rangeScalingPacket 22 * ((2 : ℕ) : ℚ)] := rfl
    rw [h, n54, n22]
    norm_num
  · have h : gyroXs (SensorValuesData.decode 0 3 0 rangeScalingPacket).1 =
        [normS16 rangeScalingPacket 48, normS16 rangeScalingPacket 16] := rfl
    rw [h, n48, n16]
    norm_num
  · have h : convertedGyroXs (SensorValuesData.decode 0 3 0 rangeScalingPacket).1 =
        [normS16 rangeScalingPacket 48 * ((2000 : ℕ) : ℚ),
         normS16 rangeScalingPacket 16 * ((2000 : ℕ) : ℚ)] := rfl
    rw [h, n48, n16]
    norm_num

/-- Claim C10: every successfully decoded quat-distance record has
`phase = data[4] & 0b00000001`, hence phase is 0 or 1 and never reaches
the documented third enumeration value 2. -/
theorem C10_phase_one_bit (data : List Nat) (q : QuatDistanceData)
    (h : QuatDistanceData.decode data = some q) :
    q.phase = data.getD 4 0 &&& 1 ∧ q.phase ≤ 1 ∧ q.phase ≠ 2 := by
  rw [QuatDistanceData.decode] at h
  cases h4 : pyGet data 4 with
  | none => rw [h4] at h; simp at h
  | some b4 =>
    rw [h4] at h
    have hb4 : data.getD 4 0 = b4 := by
      rw [List.getD_eq_getElem?_getD]
      have h2 : data[4]? = some b4 := h4
      rw [h2]
      rfl
    simp only [Option.bind_eq_bind, Option.some_bind] at h
    rcases h5 : unpackBits data 6 8 with _ | w <;> rw [h5] at h <;> try simp at h
    rcases h6 : unpackBits data 8 10 with _ | x <;> rw [h6] at h <;> try simp at h
    rcases h7 : unpackBits data 10 12 with _ | y <;> rw [h7] at h <;> try simp at h
    rcases h8 : unpackBits data 12 14 with _ | z <;> rw [h8] at h <;> try simp at h
    rcases h9 : unpackBits data 14 16 with _ | xd <;> rw [h9] at h <;> try simp at h
    rcases h10 : unpackBits data 16 18 with _ | yd <;> rw [h10] at h <;> try simp at h
    rcases h11 : unpackBits data 18 20 with _ | zd <;> rw [h11] at h <;> try simp at h
    have hphase : q.phase = b4 &&& 1 := by
      cases h
      simp [Nat.and_one_is_mod]
    refine ⟨by rw [hphase, hb4], ?_, ?_⟩
    · rw [hphase]
      exact Nat.and_le_right
    · rw [hphase]
      have hle := Nat.and_le_right (n := b4) (m := 1)
      omega

/-- Claim C7, counterexample: the step-analysis handler has no
connection check, so with the session not connected a sub-type-0 payload
with step_count 1 still emits one gait event and still mutates the
stored gait step count from 0 to 1. -/
theorem C7_counterexample :
    (step_analysis_notification_handler ⟨false, 0, ⟨0, 0, 0, 0⟩, 0, 0⟩
        ([0, 0, 0, 1] ++ List.replicate 16 0)).1.length = 1 ∧
    (step_analysis_notification_handler ⟨false, 0, ⟨0, 0, 0, 0⟩, 0, 0⟩
        ([0, 0, 0, 1] ++ List.replicate 16 0)).2.1.step_count.gait = 1 ∧
    (step_analysis_notification_handler ⟨false, 0, ⟨0, 0, 0, 0⟩, 0, 0⟩
        ([0, 0, 0, 1] ++ List.replicate 16 0)).2.1 ≠ ⟨false, 0, ⟨0, 0, 0, 0⟩, 0, 0⟩ := by
  decide

/-- Claim C8, counterexample: a 92-byte payload with first byte 40 is
decoded to no events at all (the constructor has no branch for tag 40),
while running the tag-50 decode path on the identical bytes yields 20
events — so tag 40 does not decode "the same fields and events" as the
tag-50 path. -/
theorem C8_counterexample :
    (SensorValuesData.decode 0 0 0 (40 :: List.replicate 91 0)).1 = [] ∧
    (SensorValuesData.decode 0 0 0 (40 :: List.replicate 91 0)).2 = true ∧
    (decode50path 0 0 0 (40 :: List.replicate 91 0)).1.length = 20 ∧
    (SensorValuesData.decode 0 0 0 (40 :: List.replicate 91 0)).1 ≠
      (decode50path 0 0 0 (40 :: List.replicate 91 0)).1 := by
  decide

/-- Claim C2, counterexample: encoding mount 1, accel range 1, gyro
range 2, version 3 and decoding the written buffer yields accel range 2
(the encoded gyro index, read from byte 8 where the encoder placed the
gyro range) and gyro range 0 (byte 9, a template constant) — not the
original (1, 2). -/
theorem C2_counterexample :
    (write_device_information 1 1 2 3).map
        (fun buf => ((DeviceInformation.decode buf).range.acc,
                     (DeviceInformation.decode buf).range.gyro)) = some (2, 0) ∧
    ¬ ((write_device_information 1 1 2 3).map
        (fun buf => ((DeviceInformation.decode buf).range.acc,
                     (DeviceInformation.decode buf).range.gyro)) = some (1, 2)) := by
  decide

/-- Claim C7, amended: a sensor-values notification received while not
connected is dropped without any event or state change; a step-analysis
notification, however, is processed identically whether or not the
session is connected (same events, same step-count update, same
completion status). -/
theorem C7_amended (st : OrpheState) (tsBase : Nat) (data sdata : List Nat)
    (h : st.connected = false) :
    sensor_values_notification_handler st tsBase data = ([], st, true) ∧
    (step_analysis_notification_handler st sdata).1 =
      (step_analysis_notification_handler { st with connected := true } sdata).1 ∧
    (step_analysis_notification_handler st sdata).2.1.step_count =
      (step_analysis_notification_handler { st with connected := true } sdata).2.1.step_count ∧
    (step_analysis_notification_handler st sdata).2.2 =
      (step_analysis_notification_handler { st with connected := true } sdata).2.2 := by
  refine ⟨by rw [sensor_values_notification_handler, if_pos h], ?_, ?_, ?_⟩ <;>
    cases h2 : StepAnalysisData.process st.step_count sdata <;>
      simp [step_analysis_notification_handler, h2]

/-- Witness for the amended C7 at a concrete disconnected state. -/
theorem C7_amended_witness :
    sensor_values_notification_handler ⟨false, 0, ⟨0, 0, 0, 0⟩, 0, 0⟩ 0 [] =
      ([], ⟨false, 0, ⟨0, 0, 0, 0⟩, 0, 0⟩, true) ∧
    (step_analysis_notification_handler ⟨false, 0, ⟨0, 0, 0, 0⟩, 0, 0⟩ []).1 =
      (step_analysis_notification_handler ⟨true, 0, ⟨0, 0, 0, 0⟩, 0, 0⟩ []).1 ∧
    (step_analysis_notification_handler ⟨false, 0, ⟨0, 0, 0, 0⟩, 0, 0⟩ []).2.1.step_count =
      (step_analysis_notification_handler ⟨true, 0, ⟨0, 0, 0, 0⟩, 0, 0⟩ []).2.1.step_count ∧
    (step_analysis_notification_handler ⟨false, 0, ⟨0, 0, 0, 0⟩, 0, 0⟩ []).2.2 =
      (step_analysis_notification_handler ⟨true, 0, ⟨0, 0, 0, 0⟩, 0, 0⟩ []).2.2 :=
  C7_amended ⟨false, 0, ⟨0, 0, 0, 0⟩, 0, 0⟩ 0 [] [] rfl

/-- Claim C8, amended: a payload with format tag 40 is routed to the
sensor-values constructor, but no branch of the constructor matches tag
40, so nothing is decoded, no event is emitted, no error is raised, and
the handler leaves the session state (including the stored serial
number) unchanged. -/
theorem C8_amended (st : OrpheState) (tsBase : Nat) (data : List Nat)
    (h0 : pyGet data 0 = some 40) (hc : st.connected = true) :
    SensorValuesData.decode st.range_acc st.range_gyro tsBase data = ([], true) ∧
    sensor_values_notification_handler st tsBase data = ([], st, true) := by
  have hdec : SensorValuesData.decode st.range_acc st.range_gyro tsBase data = ([], true) := by
    rw [SensorValuesData.decode, h0]
    norm_num
  refine ⟨hdec, ?_⟩
  rw [sensor_values_notification_handler, if_neg (by simp [hc]), h0]
  simp [hdec]

/-- Witness for the amended C8 at a concrete tag-40 payload. -/
theorem C8_amended_witness :
    SensorValuesData.decode 0 0 0 [40] = ([], true) ∧
    sensor_values_notification_handler ⟨true, 0, ⟨0, 0, 0, 0⟩, 0, 0⟩ 0 [40] =
      ([], ⟨true, 0, ⟨0, 0, 0, 0⟩, 0, 0⟩, true) :=
  C8_amended ⟨true, 0, ⟨0, 0, 0, 0⟩, 0, 0⟩ 0 [40] rfl rfl

/-- Claim C2, amended: encoding a configuration (all fields byte-ranged)
and decoding the written 20-byte buffer reproduces mount_position and
version, but the decoded accel range equals the original gyro range and
the decoded gyro range equals 0, because the encoder places the ranges
at bytes 7 and 8 while the decoder reads bytes 8 and 9; the checksum
byte 19 does equal the sum of bytes 0 to 18 masked to 8 bits. -/
theorem C2_amended (m a g v : Nat) (hm : m < 256) (ha : a < 256) (hg : g < 256)
    (hv : v < 256) :
    ∃ buf, write_device_information m a g v = some buf ∧
      buf.length = 20 ∧
      (DeviceInformation.decode buf).mount_position = m ∧
      (DeviceInformation.decode buf).version = v ∧
      (DeviceInformation.decode buf).range.acc = g ∧
      (DeviceInformation.decode buf).range.gyro = 0 ∧
      getChecksum buf = some (buf.getD 19 0) := by
  have hall : ([0x09, m, 0x00, 0x00, 0x01, 0x00, 0x3C, a, g, 0x00, 0x00, 0x00, 0xFF,
      0x00, 0x00, 0x00, 0x00, 0x00, v].all (fun b => b < 256)) = true := by
    simp only [List.all_cons, List.all_nil, Bool.and_eq_true, decide_eq_true_eq, and_true]
    omega
  have h1 : mkBytearray [0x09, m, 0x00, 0x00, 0x01, 0x00, 0x3C, a, g, 0x00, 0x00, 0x00,
      0xFF, 0x00, 0x00, 0x00, 0x00, 0x00, v] =
      some [0x09, m, 0x00, 0x00, 0x01, 0x00, 0x3C, a, g, 0x00, 0x00, 0x00,
        0xFF, 0x00, 0x00, 0x00, 0x00, 0x00, v] := by
    rw [mkBytearray, if_pos hall]
  refine ⟨[0x09, m, 0x00, 0x00, 0x01, 0x00, 0x3C, a, g, 0x00, 0x00, 0x00, 0xFF, 0x00,
      0x00, 0x00, 0x00, 0x00, v] ++
      [(0 + 9 + m + 0 + 0 + 1 + 0 + 60 + a + g + 0 + 0 + 0 + 255 + 0 + 0 + 0 + 0 + 0 + v)
        &&& 255], ?_, rfl, ?_, ?_, ?_, rfl, rfl⟩
  · unfold write_device_information
    rw [h1]
    rfl
  · show 0 + m = m
    exact Nat.zero_add m
  · show 0 + v = v
    exact Nat.zero_add v
  · show 0 + g = g
    exact Nat.zero_add g

/-- Witness for the amended C2 at mount 1, accel range 0, gyro range 2,
version 3. -/
theorem C2_amended_witness :
    ∃ buf, write_device_information 1 0 2 3 = some buf ∧
      buf.length = 20 ∧
      (DeviceInformation.decode buf).mount_position = 1 ∧
      (DeviceInformation.decode buf).version = 3 ∧
      (DeviceInformation.decode buf).range.acc = 2 ∧
      (DeviceInformation.decode buf).range.gyro = 0 ∧
      getChecksum buf = some (buf.getD 19 0) :=
  C2_amended 1 0 2 3 (by decide) (by decide) (by decide) (by decide)

/-- Claim C1, amended: for a well-formed (≥ 20-byte) payload, processing
it twice emits the sub-type's gait/stride/pronation event exactly once
total when the payload's step_count strictly exceeds the stored
per-category count beforehand, and zero times otherwise; the stored
count is set to the payload's step_count in either case; a sub-type-4
quat-distance payload emits its event on both calls (twice total). -/
theorem C1_amended (owner : StepCount) (data : List Nat) (hlen : 20 ≤ data.length) :
    (pyGet data 1 = some 0 →
      ∃ evs st, StepAnalysisData.processTwice owner data = some (evs, st) ∧
        countCat 0 evs = (if beU (pySlice data 2 4) > owner.gait then 1 else 0) ∧
        st.gait = beU (pySlice data 2 4)) ∧
    (pyGet data 1 = some 1 →
      ∃ evs st, StepAnalysisData.processTwice owner data = some (evs, st) ∧
        countCat 1 evs = (if beU (pySlice data 2 4) > owner.stride then 1 else 0) ∧
        st.stride = beU (pySlice data 2 4)) ∧
    (pyGet data 1 = some 2 →
      ∃ evs st, StepAnalysisData.processTwice owner data = some (evs, st) ∧
        countCat 2 evs = (if beU (pySlice data 2 4) > owner.pronation then 1 else 0) ∧
        st.pronation = beU (pySlice data 2 4)) ∧
    (pyGet data 1 = some 4 →
      ∃ evs st, StepAnalysisData.processTwice owner data = some (evs, st) ∧
        countCat 4 evs = 2 ∧
        st.quat = beU (pySlice data 2 4)) := by
  refine ⟨?_, ?_, ?_, ?_⟩
  · intro h1
    obtain ⟨g, hg⟩ := gaitDecode_isSome data hlen
    by_cases hgt : beU (pySlice data 2 4) > owner.gait
    · have p1 : StepAnalysisData.process owner data =
          some ([.gait g], { owner with gait := beU (pySlice data 2 4) }) := by
        simp [StepAnalysisData.process, h1, hg, hgt]
      have p2 : StepAnalysisData.process { owner with gait := beU (pySlice data 2 4) } data =
          some ([], { owner with gait := beU (pySlice data 2 4) }) := by
        simp [StepAnalysisData.process, h1]
      refine ⟨[.gait g], { owner with gait := beU (pySlice data 2 4) }, ?_, ?_, rfl⟩
      · simp [StepAnalysisData.processTwice, p1, p2]
      · rw [if_pos hgt]
        simp [countCat, StepEvent.cat]
    · have p1 : StepAnalysisData.process owner data =
          some ([], { owner with gait := beU (pySlice data 2 4) }) := by
        simp [StepAnalysisData.process, h1, hgt]
      have p2 : StepAnalysisData.process { owner with gait := beU (pySlice data 2 4) } data =
          some ([], { owner with gait := beU (pySlice data 2 4) }) := by
        simp [StepAnalysisData.process, h1]
      refine ⟨[], { owner with gait := beU (pySlice data 2 4) }, ?_, ?_, rfl⟩
      · simp [StepAnalysisData.processTwice, p1, p2]
      · rw [if_neg hgt]
        simp [countCat]
  · intro h1
    obtain ⟨s, hs⟩ := strideDecode_isSome data hlen
    by_cases hgt : beU (pySlice data 2 4) > owner.stride
    · have p1 : StepAnalysisData.process owner data =
          some ([.stride s], { owner with stride := beU (pySlice data 2 4) }) := by
        simp [StepAnalysisData.process, h1, hs, hgt]
      have p2 : StepAnalysisData.process { owner with stride := beU (pySlice data 2 4) } data =
          some ([], { owner with stride := beU (pySlice data 2 4) }) := by
        simp [StepAnalysisData.process, h1]
      refine ⟨[.stride s], { owner with stride := beU (pySlice data 2 4) }, ?_, ?_, rfl⟩
      · simp [StepAnalysisData.processTwice, p1, p2]
      · rw [if_pos hgt]
        simp [countCat, StepEvent.cat]
    · have p1 : StepAnalysisData.process owner data =
          some ([], { owner with stride := beU (pySlice data 2 4) }) := by
        simp [StepAnalysisData.process, h1, hgt]
      have p2 : StepAnalysisData.process { owner with stride := beU (pySlice data 2 4) } data =
          some ([], { owner with stride := beU (pySlice data 2 4) }) := by
        simp [StepAnalysisData.process, h1]
      refine ⟨[], { owner with stride := beU (pySlice data 2 4) }, ?_, ?_, rfl⟩
      · simp [StepAnalysisData.processTwice, p1, p2]
      · rw [if_neg hgt]
        simp [countCat]
  · intro h1
    obtain ⟨p, hp⟩ := pronationDecode_isSome data hlen
    by_cases hgt : beU (pySlice data 2 4) > owner.pronation
    · have p1 : StepAnalysisData.process owner data =
          some ([.pronation p], { owner with pronation := beU (pySlice data 2 4) }) := by
        simp [StepAnalysisData.process, h1, hp, hgt]
      have p2 : StepAnalysisData.process
          { owner with pronation := beU (pySlice data 2 4) } data =
          some ([], { owner with pronation := beU (pySlice data 2 4) }) := by
        simp [StepAnalysisData.process, h1]
      refine ⟨[.pronation p], { owner with pronation := beU (pySlice data 2 4) },
        ?_, ?_, rfl⟩
      · simp [StepAnalysisData.processTwice, p1, p2]
      · rw [if_pos hgt]
        simp [countCat, StepEvent.cat]
    · have p1 : StepAnalysisData.process owner data =
          some ([], { owner with pronation := beU (pySlice data 2 4) }) := by
        simp [StepAnalysisData.process, h1, hgt]
      have p2 : StepAnalysisData.process
          { owner with pronation := beU (pySlice data 2 4) } data =
          some ([], { owner with pronation := beU (pySlice data 2 4) }) := by
        simp [StepAnalysisData.process, h1]
      refine ⟨[], { owner with pronation := beU (pySlice data 2 4) }, ?_, ?_, rfl⟩
      · simp [StepAnalysisData.processTwice, p1, p2]
      · rw [if_neg hgt]
        simp [countCat]
  · intro h1
    obtain ⟨q, hq⟩ := quatDistanceDecode_isSome data hlen
    have p1 : StepAnalysisData.process owner data =
        some ([.quatDistance q], { owner with quat := beU (pySlice data 2 4) }) := by
      simp [StepAnalysisData.process, h1, hq]
    have p2 : StepAnalysisData.process { owner with quat := beU (pySlice data 2 4) } data =
        some ([.quatDistance q], { owner with quat := beU (pySlice data 2 4) }) := by
      simp [StepAnalysisData.process, h1, hq]
    refine ⟨[.quatDistance q, .quatDistance q],
      { owner with quat := beU (pySlice data 2 4) }, ?_, ?_, rfl⟩
    · simp [StepAnalysisData.processTwice, p1, p2]
    · simp [countCat, StepEvent.cat]

/-- Witness for the amended C1: a fresh session and a sub-type-0 payload
with step_count 1 emits the gait event once across the two deliveries. -/
theorem C1_amended_witness :
    ∃ evs st, StepAnalysisData.processTwice ⟨0, 0, 0, 0⟩
        ([0, 0, 0, 1] ++ List.replicate 16 0) = some (evs, st) ∧
      countCat 0 evs =
        (if beU (pySlice ([0, 0, 0, 1] ++ List.replicate 16 0) 2 4) > 0 then 1 else 0) ∧
      st.gait = beU (pySlice ([0, 0, 0, 1] ++ List.replicate 16 0) 2 4) :=
  (C1_amended ⟨0, 0, 0, 0⟩ ([0, 0, 0, 1] ++ List.replicate 16 0) (by decide)).1 rfl

/-- Witness for C10 at a concrete all-zero 20-byte payload. -/
theorem C10_phase_one_bit_witness :
    (⟨0, 0, 0, 0, 0, 0, 0, 0, 0, 0, 0⟩ : QuatDistanceData).phase =
        (List.replicate 20 0).getD 4 0 &&& 1 ∧
      (⟨0, 0, 0, 0, 0, 0, 0, 0, 0, 0, 0⟩ : QuatDistanceData).phase ≤ 1 ∧
      (⟨0, 0, 0, 0, 0, 0, 0, 0, 0, 0, 0⟩ : QuatDistanceData).phase ≠ 2 :=
  C10_phase_one_bit (List.replicate 20 0) ⟨0, 0, 0, 0, 0, 0, 0, 0, 0, 0, 0⟩ (by decide)

end OrpheInsole
